import Mathlib

set_option maxRecDepth 100000
set_option maxHeartbeats 10000000

/-!
Verification of the EIP-712 cross-check script `verify-eip712.py`.

The script recomputes an EIP-712 typed-data hash (domain separator, struct
hash, signing message hash) and compares each digest against hardcoded
constants from a second (TypeScript) implementation.  We embed the
byte-level computations shallowly: Python `bytes` become `List Nat` (each
element a byte value `< 256`), Python `int` becomes `Nat`/`Int`, and the
Keccak-256 primitive (`Crypto.Hash.keccak`, `digest_bits=256`) is embedded
in full so that the concrete digests can be evaluated by the kernel.
-/

/-- Mask selecting the low 64 bits of a lane. -/
def MASK64 : Nat := 2 ^ 64 - 1

/-- Rotate a 64-bit word left by `n` bits (`0 ≤ n < 64`). -/
def rotl64 (x n : Nat) : Nat :=
  ((x <<< n) ||| (x >>> (64 - n))) &&& MASK64

/-- The Keccak state: a list of 25 lanes, lane `i = x + 5*y` at position
`i`; out-of-range reads give `0`. -/
def lane (st : List Nat) (i : Nat) : Nat := st.getD i 0

/-- Keccak-f[1600] round constants (24 rounds). -/
def keccakRC : List Nat :=
  [0x0000000000000001, 0x0000000000008082, 0x800000000000808a] ++
  [0x8000000080008000, 0x000000000000808b, 0x0000000080000001] ++
  [0x8000000080008081, 0x8000000000008009, 0x000000000000008a] ++
  [0x0000000000000088, 0x0000000080008009, 0x000000008000000a] ++
  [0x000000008000808b, 0x800000000000008b, 0x8000000000008089] ++
  [0x8000000000008003, 0x8000000000008002, 0x8000000000000080] ++
  [0x000000000000800a, 0x800000008000000a, 0x8000000080008081] ++
  [0x8000000000008080, 0x0000000080000001, 0x8000000080008008]

/-- Rho rotation offsets, indexed by lane `i = x + 5*y`. -/
def rhoOffsets : List Nat :=
  [0, 1, 62, 28, 27] ++ [36, 44, 6, 55, 20] ++ [3, 10, 43, 25, 39] ++
  [41, 45, 15, 21, 8] ++ [18, 2, 61, 56, 14]

/-- For output lane `j` of the pi step, the index of the source lane:
the inverse of `x + 5*y ↦ y + 5*((2*x + 3*y) % 5)`. -/
def piSource : List Nat :=
  [0, 6, 12, 18, 24] ++ [3, 9, 10, 16, 22] ++ [1, 7, 13, 19, 20] ++
  [4, 5, 11, 17, 23] ++ [2, 8, 14, 15, 21]

/-- Theta step of Keccak-f. -/
def theta (A : List Nat) : List Nat :=
  let C := (List.range 5).map fun x =>
    lane A x ^^^ lane A (x + 5) ^^^ lane A (x + 10) ^^^ lane A (x + 15) ^^^ lane A (x + 20)
  let D := (List.range 5).map fun x =>
    lane C ((x + 4) % 5) ^^^ rotl64 (lane C ((x + 1) % 5)) 1
  (List.range 25).map fun i => lane A i ^^^ lane D (i % 5)

/-- Combined rho and pi steps of Keccak-f. -/
def rhoPi (A : List Nat) : List Nat :=
  (List.range 25).map fun j =>
    rotl64 (lane A (lane piSource j)) (lane rhoOffsets (lane piSource j))

/-- Chi step of Keccak-f. -/
def chi (B : List Nat) : List Nat :=
  (List.range 25).map fun i =>
    lane B i ^^^ ((MASK64 ^^^ lane B ((i % 5 + 1) % 5 + 5 * (i / 5))) &&&
      lane B ((i % 5 + 2) % 5 + 5 * (i / 5)))

/-- One Keccak-f round with round constant `rc` (the iota step XORs the
constant into lane 0). -/
def keccakRound (A : List Nat) (rc : Nat) : List Nat :=
  let B := chi (rhoPi (theta A))
  (lane B 0 ^^^ rc) :: B.drop 1

/-- The Keccak-f[1600] permutation: 24 rounds. -/
def keccakF (A : List Nat) : List Nat :=
  keccakRC.foldl keccakRound A

/-- Original Keccak padding (pre-NIST `0x01 … 0x80`, `0x81` when one byte
of padding is needed) to a multiple of the 136-byte rate. -/
def keccakPad (msg : List Nat) : List Nat :=
  let padLen := 136 - msg.length % 136
  if padLen = 1 then msg ++ [0x81]
  else msg ++ [0x01] ++ List.replicate (padLen - 2) 0 ++ [0x80]

/-- Load lane `j` (little-endian, 8 bytes) from a 136-byte block. -/
def laneAt (block : List Nat) (j : Nat) : Nat :=
  (List.range 8).foldl (fun acc k => acc ||| (block.getD (8 * j + k) 0 <<< (8 * k))) 0

/-- XOR one 136-byte block into the state and permute. -/
def absorbBlock (st block : List Nat) : List Nat :=
  keccakF ((List.range 25).map fun j => lane st j ^^^ laneAt block j)

/-- Absorb `n` rate-sized blocks of `rest` into the state. -/
def absorbAux : Nat → List Nat → List Nat → List Nat
  | 0, st, _ => st
  | n + 1, st, rest => absorbAux n (absorbBlock st (rest.take 136)) (rest.drop 136)

/-- Keccak-256 (`keccak256` in the script: `Crypto.Hash.keccak` with
`digest_bits=256`): pads, absorbs, and squeezes the first 32 bytes of the
state (little-endian within each lane). -/
def keccak256 (msg : List Nat) : List Nat :=
  let p := keccakPad msg
  let st := absorbAux (p.length / 136) (List.replicate 25 0) p
  (List.range 32).map fun i => (lane st (i / 8) >>> (8 * (i % 8))) &&& 0xFF

/-- UTF-8 bytes of a string (`s.encode` with the utf-8 codec in the script).  Every
string the script encodes is pure ASCII, for which UTF-8 is the identity
on code points. -/
def utf8 (s : String) : List Nat := s.data.map Char.toNat

/-- Fixed-width big-endian byte encoding of a natural number
(`value.to_bytes` with width `n` and big byte order, for an in-range value). -/
def beBytes : Nat → Nat → List Nat
  | 0, _ => []
  | n + 1, v => beBytes n (v / 256) ++ [v % 256]

/-- Big-endian interpretation of a byte list
(`int.from_bytes` with big byte order). -/
def beDecode (bs : List Nat) : Nat := bs.foldl (fun acc b => acc * 256 + b) 0

/-- `encode_u256` from the script: `value.to_bytes` with width 32 and big byte order.  The Python builtin
`int.to_bytes` raises `OverflowError` when the value is negative or does
not fit in 32 bytes; failure is modelled as `none`. -/
def encode_u256 (value : Int) : Option (List Nat) :=
  if 0 ≤ value ∧ value < ((2 ^ 256 : Nat) : Int) then some (beBytes 32 value.toNat)
  else none

/-- Value of one hexadecimal digit character; `none` on a non-hex
character (models the `ValueError` raised by Python). -/
def hexVal (c : Char) : Option Nat :=
  if '0' ≤ c ∧ c ≤ '9' then some (c.toNat - '0'.toNat)
  else if 'a' ≤ c ∧ c ≤ 'f' then some (c.toNat - 'a'.toNat + 10)
  else if 'A' ≤ c ∧ c ≤ 'F' then some (c.toNat - 'A'.toNat + 10)
  else none

/-- `bytes.fromhex` on a string of hexadecimal digits: consumes two digits
per byte, failing (`none`) on an odd-length or non-hex input. -/
def fromhex : List Char → Option (List Nat)
  | [] => some []
  | [_] => none
  | c1 :: c2 :: rest =>
    match hexVal c1, hexVal c2, fromhex rest with
    | some h, some l, some bs => some ((16 * h + l) :: bs)
    | _, _, _ => none

/-- `encode_address` from the script: drops the `0x` prefix
(`address[2:]`), hex-decodes the remainder, and prepends 12 zero bytes.
The script performs no length check on the decoded bytes. -/
def encode_address (address : String) : Option (List Nat) :=
  (fromhex (address.data.drop 2)).map fun addr_bytes =>
    List.replicate 12 0 ++ addr_bytes

/-- Lowercase hexadecimal digit character for `n < 16`. -/
def hexDigitChar (n : Nat) : Char :=
  if n ≤ 9 then Char.ofNat (n + '0'.toNat) else Char.ofNat (n - 10 + 'a'.toNat)

/-- Lowercase hex rendering of a byte list (`bytes.hex()` in the script). -/
def hexChars : List Nat → List Char
  | [] => []
  | b :: bs => hexDigitChar (b / 16) :: hexDigitChar (b % 16) :: hexChars bs

/-- `bytes.hex()` as a `String`. -/
def hexStr (bs : List Nat) : String := ⟨hexChars bs⟩

/-! ## Constants of the script (lines 24–36). -/

def DOMAIN_TYPE : String :=
  "EIP712Domain(string name,string version,uint256 chainId,address verifyingContract)"
def NAME : String := "DataNode"
def VERSION : String := "1"
def CHAIN_ID : Nat := 111222333
def VERIFYING_CONTRACT : String := "0x5dE1C21682EF8b39aeB0BA9FA6068C650d3f744e"

def STRUCT_TYPE : String :=
  "DataNodeRequest(string method,string path,uint256 timestamp,uint256 nonce)"
def METHOD : String := "GET"
def PATH : String := "/api/v1/prices/finnhub"
def TIMESTAMP : Nat := 1770084386
def NONCE : Nat := 386866

/-! ## The pipeline of the script (lines 41–100).  Each fallible encoder call
succeeds on the constants above (proved below); `.getD []` extracts the
value as the straight-line script would. -/

def domain_type_hash : List Nat := keccak256 (utf8 DOMAIN_TYPE)
def name_hash : List Nat := keccak256 (utf8 NAME)
def version_hash : List Nat := keccak256 (utf8 VERSION)
def chain_id_bytes : List Nat := (encode_u256 CHAIN_ID).getD []
def address_bytes : List Nat := (encode_address VERIFYING_CONTRACT).getD []

def domain_data : List Nat :=
  domain_type_hash ++ name_hash ++ version_hash ++ chain_id_bytes ++ address_bytes
def domain_separator : List Nat := keccak256 domain_data

def struct_type_hash : List Nat := keccak256 (utf8 STRUCT_TYPE)
def method_hash : List Nat := keccak256 (utf8 METHOD)
def path_hash : List Nat := keccak256 (utf8 PATH)
def timestamp_bytes : List Nat := (encode_u256 TIMESTAMP).getD []
def nonce_bytes : List Nat := (encode_u256 NONCE).getD []

def struct_data : List Nat :=
  struct_type_hash ++ method_hash ++ path_hash ++ timestamp_bytes ++ nonce_bytes
def struct_hash : List Nat := keccak256 struct_data

/-- Line 97 of the script prepends the two prefix bytes `0x19` and `0x01`
to the two digests, generalized here over the digests exactly as the line
concatenates them. -/
def message_bytes (ds sh : List Nat) : List Nat := 0x19 :: 0x01 :: (ds ++ sh)

/-- Line 99: `message_hash = keccak256(message)`, generalized over the two
digests. -/
def message_hash_of (ds sh : List Nat) : List Nat := keccak256 (message_bytes ds sh)

/-- The `message_hash` of the script, at its concrete digests. -/
def message_hash : List Nat := message_hash_of domain_separator struct_hash

/-! ## The hardcoded TypeScript constants (lines 106–108) and the three
verification comparisons (lines 111–113). -/

def ts_domain_sep : String :=
  "b54e71ed181dc14d1d4268384ffba108241611e40a16197e69b9fb4468c862df"
def ts_struct_hash : String :=
  "f126db3247e509f0c1215cdbbbfa462f367efb5c5bef8bff98534f6c2e82a0ee"
def ts_message_hash : String :=
  "af7fdd88b4ec5903cee293d25f8edde9e97ed9dc9aef5a5261cd1338e10d9a7d"

def domain_separator_match : Bool := hexStr domain_separator == ts_domain_sep
def struct_hash_match : Bool := hexStr struct_hash == ts_struct_hash
def message_hash_match : Bool := hexStr message_hash == ts_message_hash

/-! ## Helper lemmas about the primitive encoders. -/

/-- Fixed-width big-endian encoding always produces exactly `n` bytes. -/
theorem beBytes_length (n v : Nat) : (beBytes n v).length = n := by
  induction n generalizing v with
  | zero => rfl
  | succ n ih =>
      show (beBytes n (v / 256) ++ [v % 256]).length = n + 1
      simp [ih]

/-- Appending one byte shifts the big-endian value by one base-256 digit. -/
theorem beDecode_append_singleton (bs : List Nat) (b : Nat) :
    beDecode (bs ++ [b]) = beDecode bs * 256 + b := by
  simp [beDecode, List.foldl_append]

/-- Big-endian decoding inverts fixed-width big-endian encoding for
in-range values. -/
theorem beDecode_beBytes (n v : Nat) (h : v < 256 ^ n) :
    beDecode (beBytes n v) = v := by
  induction n generalizing v with
  | zero =>
      simp only [pow_zero, Nat.lt_one_iff] at h
      subst h; rfl
  | succ n ih =>
      have hdiv : v / 256 < 256 ^ n := by
        rw [Nat.div_lt_iff_lt_mul (by norm_num : 0 < 256)]
        calc v < 256 ^ (n + 1) := h
          _ = 256 ^ n * 256 := pow_succ 256 n
      show beDecode (beBytes n (v / 256) ++ [v % 256]) = v
      rw [beDecode_append_singleton, ih _ hdiv]
      omega

/-- The two power notations for the uint256 bound agree. -/
theorem pow256_32 : (256 : Nat) ^ 32 = 2 ^ 256 := by norm_num

/-- The uint256 bound of `encode_u256` (stated over `Nat` so that the
kernel computes it directly) equals the integer power `2 ^ 256`. -/
theorem two_pow_256_cast : ((2 ^ 256 : Nat) : Int) = 2 ^ 256 := by push_cast

/-! ## Staged evaluation of the digests of the script.  Each Keccak-256
invocation of the pipeline is evaluated exactly once and its digest reused
as a byte-list literal. -/

/-- Evaluation of the domain type hash (line 41). -/
theorem domain_type_hash_val :
    domain_type_hash =
    [0x8b, 0x73, 0xc3, 0xc6, 0x9b, 0xb8, 0xfe, 0x3d, 0x51, 0x2e,
     0xcc, 0x4c, 0xf7, 0x59, 0xcc, 0x79, 0x23, 0x9f, 0x7b, 0x17,
     0x9b, 0x0f, 0xfa, 0xca, 0xa9, 0xa7, 0x5d, 0x52, 0x2b, 0x39,
     0x40, 0x0f] := by
  decide

/-- Evaluation of the name hash (line 46). -/
theorem name_hash_val :
    name_hash =
    [0xb9, 0x69, 0xc1, 0x20, 0x08, 0x5e, 0x20, 0x58, 0xeb, 0x5c,
     0x02, 0x6e, 0x86, 0x0e, 0xaa, 0x6d, 0x46, 0xa8, 0xfa, 0x00,
     0x00, 0x87, 0xe9, 0x79, 0xcd, 0x56, 0x57, 0x10, 0xe4, 0x73,
     0x1b, 0x81] := by
  decide

/-- Evaluation of the version hash (line 47). -/
theorem version_hash_val :
    version_hash =
    [0xc8, 0x9e, 0xfd, 0xaa, 0x54, 0xc0, 0xf2, 0x0c, 0x7a, 0xdf,
     0x61, 0x28, 0x82, 0xdf, 0x09, 0x50, 0xf5, 0xa9, 0x51, 0x63,
     0x7e, 0x03, 0x07, 0xcd, 0xcb, 0x4c, 0x67, 0x2f, 0x29, 0x8b,
     0x8b, 0xc6] := by
  decide

/-- Evaluation of the encoded chain id (line 52). -/
theorem chain_id_bytes_val :
    chain_id_bytes =
    [0x00, 0x00, 0x00, 0x00, 0x00, 0x00, 0x00, 0x00, 0x00, 0x00,
     0x00, 0x00, 0x00, 0x00, 0x00, 0x00, 0x00, 0x00, 0x00, 0x00,
     0x00, 0x00, 0x00, 0x00, 0x00, 0x00, 0x00, 0x00, 0x06, 0xa1,
     0x1e, 0x3d] := by
  decide

/-- Evaluation of the encoded verifying contract address (line 53). -/
theorem address_bytes_val :
    address_bytes =
    [0x00, 0x00, 0x00, 0x00, 0x00, 0x00, 0x00, 0x00, 0x00, 0x00,
     0x00, 0x00, 0x5d, 0xe1, 0xc2, 0x16, 0x82, 0xef, 0x8b, 0x39,
     0xae, 0xb0, 0xba, 0x9f, 0xa6, 0x06, 0x8c, 0x65, 0x0d, 0x3f,
     0x74, 0x4e] := by
  decide

/-- Evaluation of the struct type hash (line 69). -/
theorem struct_type_hash_val :
    struct_type_hash =
    [0xfa, 0xb7, 0xc5, 0x03, 0x59, 0xba, 0x19, 0x49, 0x16, 0x63,
     0x94, 0x3d, 0x6a, 0x8d, 0x9a, 0xf4, 0x98, 0x14, 0xea, 0x6d,
     0x75, 0xa0, 0x10, 0x83, 0x14, 0xd6, 0x14, 0x86, 0xcf, 0x63,
     0x7f, 0x23] := by
  decide

/-- Evaluation of the method hash (line 74). -/
theorem method_hash_val :
    method_hash =
    [0x5a, 0x61, 0xba, 0xbe, 0xb7, 0x6c, 0x55, 0x47, 0x83, 0xca,
     0x90, 0xa1, 0xa2, 0x50, 0xe8, 0x4f, 0x1b, 0x70, 0x34, 0x09,
     0xfd, 0xff, 0x33, 0xc2, 0x17, 0xab, 0x64, 0xdd, 0x51, 0xf0,
     0x51, 0x99] := by
  decide

/-- Evaluation of the path hash (line 75). -/
theorem path_hash_val :
    path_hash =
    [0xdf, 0xdd, 0x2b, 0xc6, 0xb2, 0x70, 0x52, 0x83, 0xda, 0x03,
     0xa3, 0x09, 0xfa, 0x7b, 0x38, 0x21, 0xb3, 0x27, 0x06, 0x75,
     0x12, 0x42, 0x63, 0x8e, 0x73, 0xd8, 0x08, 0x4c, 0xda, 0xfa,
     0x1c, 0x0a] := by
  decide

/-- Evaluation of the encoded timestamp (line 80). -/
theorem timestamp_bytes_val :
    timestamp_bytes =
    [0x00, 0x00, 0x00, 0x00, 0x00, 0x00, 0x00, 0x00, 0x00, 0x00,
     0x00, 0x00, 0x00, 0x00, 0x00, 0x00, 0x00, 0x00, 0x00, 0x00,
     0x00, 0x00, 0x00, 0x00, 0x00, 0x00, 0x00, 0x00, 0x69, 0x81,
     0x58, 0x22] := by
  decide

/-- Evaluation of the encoded nonce (line 81). -/
theorem nonce_bytes_val :
    nonce_bytes =
    [0x00, 0x00, 0x00, 0x00, 0x00, 0x00, 0x00, 0x00, 0x00, 0x00,
     0x00, 0x00, 0x00, 0x00, 0x00, 0x00, 0x00, 0x00, 0x00, 0x00,
     0x00, 0x00, 0x00, 0x00, 0x00, 0x00, 0x00, 0x00, 0x00, 0x05,
     0xe7, 0x32] := by
  decide

/-- Evaluation of the domain separator (line 60), staged through the
field evaluations so that each digest is computed once. -/
theorem domain_separator_val :
    domain_separator =
    [0xb5, 0x4e, 0x71, 0xed, 0x18, 0x1d, 0xc1, 0x4d, 0x1d, 0x42,
     0x68, 0x38, 0x4f, 0xfb, 0xa1, 0x08, 0x24, 0x16, 0x11, 0xe4,
     0x0a, 0x16, 0x19, 0x7e, 0x69, 0xb9, 0xfb, 0x44, 0x68, 0xc8,
     0x62, 0xdf] := by
  show keccak256 (domain_type_hash ++ name_hash ++ version_hash ++
    chain_id_bytes ++ address_bytes) =
    [0xb5, 0x4e, 0x71, 0xed, 0x18, 0x1d, 0xc1, 0x4d, 0x1d, 0x42,
     0x68, 0x38, 0x4f, 0xfb, 0xa1, 0x08, 0x24, 0x16, 0x11, 0xe4,
     0x0a, 0x16, 0x19, 0x7e, 0x69, 0xb9, 0xfb, 0x44, 0x68, 0xc8,
     0x62, 0xdf]
  rw [domain_type_hash_val, name_hash_val, version_hash_val,
    chain_id_bytes_val, address_bytes_val]
  decide

/-- Evaluation of the struct hash (line 88), staged through the field
evaluations. -/
theorem struct_hash_val :
    struct_hash =
    [0xf1, 0x26, 0xdb, 0x32, 0x47, 0xe5, 0x09, 0xf0, 0xc1, 0x21,
     0x5c, 0xdb, 0xbb, 0xfa, 0x46, 0x2f, 0x36, 0x7e, 0xfb, 0x5c,
     0x5b, 0xef, 0x8b, 0xff, 0x98, 0x53, 0x4f, 0x6c, 0x2e, 0x82,
     0xa0, 0xee] := by
  show keccak256 (struct_type_hash ++ method_hash ++ path_hash ++
    timestamp_bytes ++ nonce_bytes) =
    [0xf1, 0x26, 0xdb, 0x32, 0x47, 0xe5, 0x09, 0xf0, 0xc1, 0x21,
     0x5c, 0xdb, 0xbb, 0xfa, 0x46, 0x2f, 0x36, 0x7e, 0xfb, 0x5c,
     0x5b, 0xef, 0x8b, 0xff, 0x98, 0x53, 0x4f, 0x6c, 0x2e, 0x82,
     0xa0, 0xee]
  rw [struct_type_hash_val, method_hash_val, path_hash_val,
    timestamp_bytes_val, nonce_bytes_val]
  decide

/-- Evaluation of the message hash (line 99), staged through the domain
separator and struct hash evaluations. -/
theorem message_hash_val :
    message_hash =
    [0xaf, 0x7f, 0xdd, 0x88, 0xb4, 0xec, 0x59, 0x03, 0xce, 0xe2,
     0x93, 0xd2, 0x5f, 0x8e, 0xdd, 0xe9, 0xe9, 0x7e, 0xd9, 0xdc,
     0x9a, 0xef, 0x5a, 0x52, 0x61, 0xcd, 0x13, 0x38, 0xe1, 0x0d,
     0x9a, 0x7d] := by
  show keccak256 (message_bytes domain_separator struct_hash) =
    [0xaf, 0x7f, 0xdd, 0x88, 0xb4, 0xec, 0x59, 0x03, 0xce, 0xe2,
     0x93, 0xd2, 0x5f, 0x8e, 0xdd, 0xe9, 0xe9, 0x7e, 0xd9, 0xdc,
     0x9a, 0xef, 0x5a, 0x52, 0x61, 0xcd, 0x13, 0x38, 0xe1, 0x0d,
     0x9a, 0x7d]
  rw [domain_separator_val, struct_hash_val]
  decide

/-! ## Claim theorems. -/

/-- A standard Keccak-256 test vector anchoring the embedding: the digest
of the empty byte string. -/
example : keccak256 [] =
    [0xc5, 0xd2, 0x46, 0x01, 0x86, 0xf7, 0x23, 0x3c, 0x92, 0x7e, 0x7d, 0xb2,
     0xdc, 0xc7, 0x03, 0xc0, 0xe5, 0x00, 0xb6, 0x53, 0xca, 0x82, 0x27, 0x3b,
     0x7b, 0xfa, 0xd8, 0x04, 0x5d, 0x85, 0xa4, 0x70] := by decide

/-- Claim C7: for every byte sequence `b`, `keccak256 b` is exactly 32
bytes, and two invocations on the same input return the same digest (the
embedded function is pure, so determinism is definitional). -/
theorem keccak256_length_deterministic (b : List Nat) :
    (keccak256 b).length = 32 ∧ keccak256 b = keccak256 b := by
  refine ⟨?_, rfl⟩
  simp [keccak256]

/-- Claim C2: for every pair of 32-byte digests, the message hash is
`keccak256` of the 66-byte preimage `0x19 0x01 ‖ domainSeparator ‖
structHash`, and the preimage built by the code has length 66. -/
theorem message_hash_preimage (ds sh : List Nat)
    (h1 : ds.length = 32) (h2 : sh.length = 32) :
    message_hash_of ds sh = keccak256 ([0x19, 0x01] ++ ds ++ sh) ∧
    (message_bytes ds sh).length = 66 := by
  refine ⟨rfl, ?_⟩
  simp [message_bytes, h1, h2]

/-- Witness for C2 at two concrete 32-byte inputs. -/
theorem message_hash_preimage_witness :
    message_hash_of (List.replicate 32 0) (List.replicate 32 1) =
      keccak256 ([0x19, 0x01] ++ List.replicate 32 0 ++ List.replicate 32 1) ∧
    (message_bytes (List.replicate 32 0) (List.replicate 32 1)).length = 66 :=
  message_hash_preimage _ _ (by decide) (by decide)

/-- Claim C3: `encode_u256` returns the 32-byte big-endian encoding for
`0 ≤ value ≤ 2^256 - 1` and fails (modelled as `none`) for any negative
or too-large value; in particular it never silently truncates. -/
theorem encode_u256_range (v : Int) :
    ((0 ≤ v ∧ v < 2 ^ 256) →
      ∃ bs, encode_u256 v = some bs ∧ bs.length = 32 ∧ (beDecode bs : Int) = v) ∧
    ((v < 0 ∨ 2 ^ 256 ≤ v) → encode_u256 v = none) := by
  constructor
  · rintro ⟨h0, h1⟩
    refine ⟨beBytes 32 v.toNat, ?_, beBytes_length _ _, ?_⟩
    · simp only [encode_u256]
      rw [if_pos ⟨h0, by rw [two_pow_256_cast]; exact h1⟩]
    · have hc : (v.toNat : Int) = v := Int.toNat_of_nonneg h0
      have hlt : v.toNat < 2 ^ 256 := by
        have hx : (v.toNat : Int) < (2 : Int) ^ 256 := by rw [hc]; exact h1
        exact_mod_cast hx
      rw [beDecode_beBytes 32 v.toNat (by rw [pow256_32]; exact hlt)]
      exact hc
  · intro h
    simp only [encode_u256]
    rw [if_neg]
    rintro ⟨h0, h1⟩
    rw [two_pow_256_cast] at h1
    rcases h with h | h
    · exact absurd h0 (not_le.mpr h)
    · exact absurd h1 (not_lt.mpr h)

/-- Witness for C3: a small in-range value encodes; `-1` fails. -/
theorem encode_u256_range_witness :
    (∃ bs, encode_u256 3 = some bs ∧ bs.length = 32 ∧ (beDecode bs : Int) = 3) ∧
    encode_u256 (-1) = none :=
  ⟨(encode_u256_range 3).1 (by norm_num), (encode_u256_range (-1)).2 (Or.inl (by norm_num))⟩

/-- Claim C9: for every `v < 2^256`, `encode_u256` succeeds, its output
decodes back to `v` as a big-endian unsigned integer, and the encoding is
exactly 32 bytes. -/
theorem encode_u256_roundtrip (v : Nat) (h : v < 2 ^ 256) :
    ∃ bs, encode_u256 (v : Int) = some bs ∧ beDecode bs = v ∧ bs.length = 32 := by
  have h0 : (0 : Int) ≤ (v : Int) := Int.natCast_nonneg v
  have h1 : (v : Int) < ((2 ^ 256 : Nat) : Int) := by exact_mod_cast h
  refine ⟨beBytes 32 ((v : Int)).toNat, ?_, ?_, beBytes_length _ _⟩
  · simp only [encode_u256]
    rw [if_pos ⟨h0, h1⟩]
  · have ht : ((v : Int)).toNat = v := Int.toNat_natCast v
    rw [ht]
    exact beDecode_beBytes 32 v (by rw [pow256_32]; exact h)

/-- Witness for C9 at the nonce value of the script. -/
theorem encode_u256_roundtrip_witness :
    ∃ bs, encode_u256 ((386866 : Nat) : Int) = some bs ∧
      beDecode bs = 386866 ∧ bs.length = 32 :=
  encode_u256_roundtrip 386866 (by norm_num)

/-- Counterexample to C4 as stated: a 19-byte address (38 hex digits, the
verifying contract of the script with its last byte removed) does not fail
with any error; `encode_address` returns a 31-byte value. -/
theorem encode_address_no_length_error :
    encode_address "0x5dE1C21682EF8b39aeB0BA9FA6068C650d3f74" ≠ none ∧
    ((encode_address "0x5dE1C21682EF8b39aeB0BA9FA6068C650d3f74").getD []).length = 31 := by
  decide

/-- Claim C4 as amended: given an address whose hex content decodes to
exactly 20 bytes, `encode_address` returns the 32-byte value consisting of
12 zero bytes followed by the 20 address bytes (the code performs no
length validation, so the failure clause of the claim is dropped). -/
theorem encode_address_pads_to_32 (address : String) (a : List Nat)
    (h : fromhex (address.data.drop 2) = some a) (h20 : a.length = 20) :
    encode_address address = some (List.replicate 12 0 ++ a) ∧
    (List.replicate 12 0 ++ a).length = 32 := by
  refine ⟨by simp [encode_address, h], ?_⟩
  simp [h20]

/-- Witness for the amended C4 at the verifying contract of the script. -/
theorem encode_address_pads_to_32_witness :
    encode_address "0x5dE1C21682EF8b39aeB0BA9FA6068C650d3f744e" =
      some (List.replicate 12 0 ++
        [0x5d, 0xe1, 0xc2, 0x16, 0x82, 0xef, 0x8b, 0x39, 0xae, 0xb0,
         0xba, 0x9f, 0xa6, 0x06, 0x8c, 0x65, 0x0d, 0x3f, 0x74, 0x4e]) ∧
    (List.replicate 12 0 ++
        [0x5d, 0xe1, 0xc2, 0x16, 0x82, 0xef, 0x8b, 0x39, 0xae, 0xb0,
         0xba, 0x9f, 0xa6, 0x06, 0x8c, 0x65, 0x0d, 0x3f, 0x74, 0x4e]).length = 32 :=
  encode_address_pads_to_32 _ _ (by decide) (by decide)

/-- Claim C10: `encode_address` performs no length validation: whenever
the characters after the first two decode as hex to `n` bytes, it returns
`12 + n` bytes without any error, and when `n ≠ 20` the output is not 32
bytes long. -/
theorem encode_address_no_validation (s : String) (a : List Nat)
    (h : fromhex (s.data.drop 2) = some a) :
    encode_address s = some (List.replicate 12 0 ++ a) ∧
    (List.replicate 12 0 ++ a).length = 12 + a.length ∧
    (a.length ≠ 20 → (List.replicate 12 0 ++ a).length ≠ 32) := by
  refine ⟨by simp [encode_address, h], ?_, ?_⟩
  · simp only [List.length_append, List.length_replicate]
  intro hne
  simp only [List.length_append, List.length_replicate]
  omega

/-- Witness for C10 at a 4-byte input: the output is 16 bytes and no
error occurs. -/
theorem encode_address_no_validation_witness :
    encode_address "0xdeadbeef" = some (List.replicate 12 0 ++ [0xde, 0xad, 0xbe, 0xef]) ∧
    (List.replicate 12 0 ++ [0xde, 0xad, 0xbe, 0xef]).length = 12 + [0xde, 0xad, 0xbe, 0xef].length ∧
    ([0xde, 0xad, 0xbe, 0xef].length ≠ 20 →
      (List.replicate 12 0 ++ [0xde, 0xad, 0xbe, 0xef]).length ≠ 32) :=
  encode_address_no_validation "0xdeadbeef" [0xde, 0xad, 0xbe, 0xef] (by decide)

/-- Claim C5: the struct hash computed by the script equals `keccak256` of
the type hash of the canonical type string concatenated with the 32-byte
encodings of the four field values of the `DataNodeRequest` instance in
schema order. -/
theorem struct_hash_known_instance :
    ∃ tb nb,
      encode_u256 1770084386 = some tb ∧ encode_u256 386866 = some nb ∧
      struct_hash =
        keccak256
          (keccak256 (utf8 "DataNodeRequest(string method,string path,uint256 timestamp,uint256 nonce)") ++
            keccak256 (utf8 "GET") ++ keccak256 (utf8 "/api/v1/prices/finnhub") ++ tb ++ nb) := by
  refine ⟨timestamp_bytes, nonce_bytes, by decide, by decide, ?_⟩
  rfl

/-- Claim C6: the domain separator computed by the script is the
struct-hash of the `EIP712Domain` type over the present fields in
canonical order: `keccak256` of the domain type hash concatenated with
the name hash, the version hash, the encoded chain id, and the encoded
verifying contract address. -/
theorem domain_separator_composition :
    ∃ cb ab,
      encode_u256 111222333 = some cb ∧
      encode_address "0x5dE1C21682EF8b39aeB0BA9FA6068C650d3f744e" = some ab ∧
      domain_separator =
        keccak256
          (keccak256 (utf8 "EIP712Domain(string name,string version,uint256 chainId,address verifyingContract)") ++
            keccak256 (utf8 "DataNode") ++ keccak256 (utf8 "1") ++ cb ++ ab) := by
  refine ⟨chain_id_bytes, address_bytes, by decide, by decide, ?_⟩
  rfl

/-- Counterexample to C1 as stated: the digest the spec states has only
63 hexadecimal digits (it is not a 32-byte value at all: it does not even
hex-decode), and the computed domain separator does not equal it. -/
theorem domain_separator_ne_stated_digest :
    hexStr domain_separator ≠
      "b54e71ed181dc14d1d4268384ffba108241611e40a16197e69b9fb4468c862d" ∧
    fromhex "b54e71ed181dc14d1d4268384ffba108241611e40a16197e69b9fb4468c862d".data = none := by
  refine ⟨?_, by decide⟩
  rw [domain_separator_val]
  decide

/-- Claim C1 as amended: the computed domain separator for the fixed
domain equals the 32-byte digest `0xb54e71ed181dc14d1d4268384ffba1082416
11e40a16197e69b9fb4468c862df` (the digest stated by the spec with its
missing final hex digit restored). -/
theorem domain_separator_known_vector :
    hexStr domain_separator =
      "b54e71ed181dc14d1d4268384ffba108241611e40a16197e69b9fb4468c862df" := by
  rw [domain_separator_val]
  decide

/-- Claim C8: the three digests the script computes for its fixed inputs
equal the hardcoded TypeScript constants, so the three verification
comparisons of the script all evaluate to `True`. -/
theorem verification_comparisons_true :
    domain_separator_match = true ∧ struct_hash_match = true ∧
    message_hash_match = true := by
  refine ⟨?_, ?_, ?_⟩
  · show (hexStr domain_separator == ts_domain_sep) = true
    rw [domain_separator_val]
    decide
  · show (hexStr struct_hash == ts_struct_hash) = true
    rw [struct_hash_val]
    decide
  · show (hexStr message_hash == ts_message_hash) = true
    rw [message_hash_val]
    decide
